import Mathlib

/-!
Verification development for the ReDry proposal application
(`proposal_generator.py` and `server.py`).

Monetary arithmetic is modelled over exact rationals: Python's
`round(x, 2)` is embedded as rounding to the nearest multiple of 1/100
with ties to even, applied to the exact value, and `float` config values
become rationals.  `int(float(x))` truncates toward zero.
-/

namespace ReDry

/-- Round a rational to the nearest integer, ties to even
(the rounding used by Python's `round`). -/
def rhe (q : ℚ) : ℤ :=
  let f := ⌊q⌋
  let r := q - (f : ℚ)
  if r < 1/2 then f
  else if 1/2 < r then f + 1
  else if f % 2 = 0 then f else f + 1

/-- Python's `round(q, 2)`: round to the nearest multiple of 1/100,
ties to even. -/
def round2 (q : ℚ) : ℚ := (rhe (q * 100) : ℚ) / 100

/-- Python's `int(q)`: truncation toward zero. -/
def pyInt (q : ℚ) : ℤ := if 0 ≤ q then ⌊q⌋ else ⌈q⌉

theorem rhe_intCast (n : ℤ) : rhe (n : ℚ) = n := by
  unfold rhe
  simp

/-- A rational that is a whole number of cents. -/
def isCents (q : ℚ) : Prop := ∃ n : ℤ, q = (n : ℚ) / 100

theorem round2_isCents (q : ℚ) : isCents (round2 q) :=
  ⟨rhe (q * 100), rfl⟩

theorem round2_eq_self {q : ℚ} (h : isCents q) : round2 q = q := by
  obtain ⟨n, rfl⟩ := h
  unfold round2
  have h100 : ((n : ℚ) / 100) * 100 = (n : ℚ) := by
    field_simp
  rw [h100, rhe_intCast]

theorem isCents_sub {a b : ℚ} (ha : isCents a) (hb : isCents b) :
    isCents (a - b) := by
  obtain ⟨m, rfl⟩ := ha
  obtain ⟨n, rfl⟩ := hb
  exact ⟨m - n, by push_cast; ring⟩

/-!
## Pricing computation of the PDF renderer

`generate_proposal_pdf` (`proposal_generator.py`, lines 190-214) computes
the base lease, tax, scan total and the three payment options.  Field
names follow the Python local variables.
-/

structure PricingResult where
  vent_system_total : ℚ
  tax_amount : ℚ
  vent_subtotal : ℚ
  scan_total : ℚ
  pf_vent_discounted : ℚ
  pf_tax : ℚ
  pf_total : ℚ
  pf_savings : ℚ
  std_total : ℚ
  std_deposit : ℚ
  std_balance : ℚ
  ez_vent_adjusted : ℚ
  ez_tax : ℚ
  ez_total : ℚ
  ez_deposit : ℚ
  ez_install : ℚ
  ez_final : ℚ
deriving Repr

def computePricing (wet_sf : ℤ) (rate_psf tax_rate_val scan_cost : ℚ)
    (num_scans : ℤ) (waive_scans : Bool) : PricingResult :=
  let vent_system_total : ℚ := (wet_sf : ℚ) * rate_psf
  let tax_amount := round2 (vent_system_total * tax_rate_val)
  let vent_subtotal := round2 (vent_system_total + tax_amount)
  let scan_total := if waive_scans then 0 else round2 (scan_cost * (num_scans : ℚ))
  let pf_vent_discounted := round2 (vent_system_total * (97/100))
  let pf_tax := round2 (pf_vent_discounted * tax_rate_val)
  let pf_total := round2 (pf_vent_discounted + pf_tax)
  let pf_savings := round2 (vent_subtotal - pf_total)
  let std_total := vent_subtotal
  let std_deposit := round2 (std_total / 2)
  let std_balance := round2 (std_total - std_deposit)
  let ez_vent_adjusted := round2 (vent_system_total * (103/100))
  let ez_tax := round2 (ez_vent_adjusted * tax_rate_val)
  let ez_total := round2 (ez_vent_adjusted + ez_tax)
  let ez_deposit := round2 (ez_total * (10/100))
  let ez_install := round2 (ez_total * (40/100))
  let ez_final := round2 (ez_total - ez_deposit - ez_install)
  { vent_system_total := vent_system_total
    tax_amount := tax_amount
    vent_subtotal := vent_subtotal
    scan_total := scan_total
    pf_vent_discounted := pf_vent_discounted
    pf_tax := pf_tax
    pf_total := pf_total
    pf_savings := pf_savings
    std_total := std_total
    std_deposit := std_deposit
    std_balance := std_balance
    ez_vent_adjusted := ez_vent_adjusted
    ez_tax := ez_tax
    ez_total := ez_total
    ez_deposit := ez_deposit
    ez_install := ez_install
    ez_final := ez_final }

/-!
## Pricing summary of the proposal email

`send_proposal` (`server.py`, lines 259-297) recomputes a pricing summary
for the email body: the investment table, the 50% deposit line and the
pay-in-full / easy-start teasers.
-/

structure EmailSummary where
  vent_total : ℚ
  tax_amount : ℚ
  subtotal : ℚ
  total_scans : ℚ
  grand_total : ℚ
  deposit_50 : ℚ
  discount_total : ℚ
  easy_start : ℚ
deriving Repr

def emailSummary (wet_sf rate tax_rate_val scan_cost : ℚ)
    (num_scans : ℤ) (waive_scans : Bool) : EmailSummary :=
  let vent_total := wet_sf * rate
  let tax_amount := round2 (vent_total * tax_rate_val)
  let subtotal := round2 (vent_total + tax_amount)
  let total_scans := if waive_scans then 0 else round2 (scan_cost * (num_scans : ℚ))
  let grand_total := round2 (subtotal + total_scans)
  let deposit_50 := round2 (grand_total / 2)
  let discount_total := round2 (grand_total * (97/100))
  let easy_start := round2 (grand_total * (103/100) * (10/100))
  { vent_total := vent_total
    tax_amount := tax_amount
    subtotal := subtotal
    total_scans := total_scans
    grand_total := grand_total
    deposit_50 := deposit_50
    discount_total := discount_total
    easy_start := easy_start }

/-- Splitting a whole-cents total into a rounded half plus the rounded
remainder recovers the total exactly. -/
theorem half_split_exact (t : ℚ) (ht : isCents t) :
    round2 (t / 2) + round2 (t - round2 (t / 2)) = t := by
  have hd : isCents (round2 (t / 2)) := round2_isCents _
  rw [round2_eq_self (isCents_sub ht hd)]
  ring

/-- Splitting a whole-cents total into rounded 10% and 40% installments
plus the rounded remainder recovers the total exactly. -/
theorem ten_forty_split_exact (t : ℚ) (ht : isCents t) :
    round2 (t * (10/100)) + round2 (t * (40/100)) +
      round2 (t - round2 (t * (10/100)) - round2 (t * (40/100))) = t := by
  have h1 : isCents (round2 (t * (10/100))) := round2_isCents _
  have h2 : isCents (round2 (t * (40/100))) := round2_isCents _
  rw [round2_eq_self (isCents_sub (isCents_sub ht h1) h2)]
  ring

/-- C2: for every non-negative wet area, rate and tax rate (and any scan
parameters), Option B's deposit is `round(totalB / 2)`, its balance is the
rounded remainder `totalB - depositB`, and `depositB + balanceB = totalB`
holds exactly, with `totalB` the lease subtotal. -/
theorem optionB_installments_sum_exact (wet_sf : ℤ) (rate tax sc : ℚ)
    (n : ℤ) (w : Bool) (h1 : 0 ≤ wet_sf) (h2 : 0 ≤ rate) (h3 : 0 ≤ tax) :
    (computePricing wet_sf rate tax sc n w).std_total =
        (computePricing wet_sf rate tax sc n w).vent_subtotal ∧
    (computePricing wet_sf rate tax sc n w).std_deposit =
        round2 ((computePricing wet_sf rate tax sc n w).std_total / 2) ∧
    (computePricing wet_sf rate tax sc n w).std_balance =
        round2 ((computePricing wet_sf rate tax sc n w).std_total -
          (computePricing wet_sf rate tax sc n w).std_deposit) ∧
    (computePricing wet_sf rate tax sc n w).std_deposit +
        (computePricing wet_sf rate tax sc n w).std_balance =
      (computePricing wet_sf rate tax sc n w).std_total := by
  refine ⟨rfl, rfl, rfl, ?_⟩
  simp only [computePricing]
  exact half_split_exact _ (round2_isCents _)

/-- C2 witness at area 11600, rate 2, tax 37/400. -/
theorem optionB_installments_sum_exact_witness :
    (computePricing 11600 2 (37/400) 4500 4 false).std_total =
        (computePricing 11600 2 (37/400) 4500 4 false).vent_subtotal ∧
    (computePricing 11600 2 (37/400) 4500 4 false).std_deposit =
        round2 ((computePricing 11600 2 (37/400) 4500 4 false).std_total / 2) ∧
    (computePricing 11600 2 (37/400) 4500 4 false).std_balance =
        round2 ((computePricing 11600 2 (37/400) 4500 4 false).std_total -
          (computePricing 11600 2 (37/400) 4500 4 false).std_deposit) ∧
    (computePricing 11600 2 (37/400) 4500 4 false).std_deposit +
        (computePricing 11600 2 (37/400) 4500 4 false).std_balance =
      (computePricing 11600 2 (37/400) 4500 4 false).std_total :=
  optionB_installments_sum_exact 11600 2 (37/400) 4500 4 false
    (by norm_num) (by norm_num) (by norm_num)

/-- C3: for every non-negative wet area, rate and tax rate (and any scan
parameters), Option C's deposit is `round(totalC * 0.10)`, its install
payment is `round(totalC * 0.40)`, its final payment is the rounded
remainder, and the three installments sum to `totalC` exactly. -/
theorem optionC_installments_sum_exact (wet_sf : ℤ) (rate tax sc : ℚ)
    (n : ℤ) (w : Bool) (h1 : 0 ≤ wet_sf) (h2 : 0 ≤ rate) (h3 : 0 ≤ tax) :
    (computePricing wet_sf rate tax sc n w).ez_deposit =
        round2 ((computePricing wet_sf rate tax sc n w).ez_total * (10/100)) ∧
    (computePricing wet_sf rate tax sc n w).ez_install =
        round2 ((computePricing wet_sf rate tax sc n w).ez_total * (40/100)) ∧
    (computePricing wet_sf rate tax sc n w).ez_final =
        round2 ((computePricing wet_sf rate tax sc n w).ez_total -
          (computePricing wet_sf rate tax sc n w).ez_deposit -
          (computePricing wet_sf rate tax sc n w).ez_install) ∧
    (computePricing wet_sf rate tax sc n w).ez_deposit +
        (computePricing wet_sf rate tax sc n w).ez_install +
        (computePricing wet_sf rate tax sc n w).ez_final =
      (computePricing wet_sf rate tax sc n w).ez_total := by
  refine ⟨rfl, rfl, rfl, ?_⟩
  simp only [computePricing]
  exact ten_forty_split_exact _ (round2_isCents _)

/-- C3 witness at area 11600, rate 2, tax 37/400. -/
theorem optionC_installments_sum_exact_witness :
    (computePricing 11600 2 (37/400) 4500 4 false).ez_deposit =
        round2 ((computePricing 11600 2 (37/400) 4500 4 false).ez_total * (10/100)) ∧
    (computePricing 11600 2 (37/400) 4500 4 false).ez_install =
        round2 ((computePricing 11600 2 (37/400) 4500 4 false).ez_total * (40/100)) ∧
    (computePricing 11600 2 (37/400) 4500 4 false).ez_final =
        round2 ((computePricing 11600 2 (37/400) 4500 4 false).ez_total -
          (computePricing 11600 2 (37/400) 4500 4 false).ez_deposit -
          (computePricing 11600 2 (37/400) 4500 4 false).ez_install) ∧
    (computePricing 11600 2 (37/400) 4500 4 false).ez_deposit +
        (computePricing 11600 2 (37/400) 4500 4 false).ez_install +
        (computePricing 11600 2 (37/400) 4500 4 false).ez_final =
      (computePricing 11600 2 (37/400) 4500 4 false).ez_total :=
  optionC_installments_sum_exact 11600 2 (37/400) 4500 4 false
    (by norm_num) (by norm_num) (by norm_num)

/-- C4: on wet area 11600, rate 2.00, tax rate 0.0925, the pricing
computation produces base lease 23200.00, tax 2146.00, lease subtotal
25346.00; Option B deposit 12673.00 and balance 12673.00; Option A
discounted base 22504.00, tax 2081.62, total 24585.62, savings 760.38;
Option C surcharged base 23896.00, tax 2210.38, total 26106.38 with
installments 2610.64, 10442.55, 13053.19 summing exactly to 26106.38. -/
theorem end_to_end_example :
    (computePricing 11600 2 (37/400) 4500 4 false).vent_system_total = 23200 ∧
    (computePricing 11600 2 (37/400) 4500 4 false).tax_amount = 2146 ∧
    (computePricing 11600 2 (37/400) 4500 4 false).vent_subtotal = 25346 ∧
    (computePricing 11600 2 (37/400) 4500 4 false).std_deposit = 12673 ∧
    (computePricing 11600 2 (37/400) 4500 4 false).std_balance = 12673 ∧
    (computePricing 11600 2 (37/400) 4500 4 false).pf_vent_discounted = 22504 ∧
    (computePricing 11600 2 (37/400) 4500 4 false).pf_tax = 208162/100 ∧
    (computePricing 11600 2 (37/400) 4500 4 false).pf_total = 2458562/100 ∧
    (computePricing 11600 2 (37/400) 4500 4 false).pf_savings = 76038/100 ∧
    (computePricing 11600 2 (37/400) 4500 4 false).ez_vent_adjusted = 23896 ∧
    (computePricing 11600 2 (37/400) 4500 4 false).ez_tax = 221038/100 ∧
    (computePricing 11600 2 (37/400) 4500 4 false).ez_total = 2610638/100 ∧
    (computePricing 11600 2 (37/400) 4500 4 false).ez_deposit = 261064/100 ∧
    (computePricing 11600 2 (37/400) 4500 4 false).ez_install = 1044255/100 ∧
    (computePricing 11600 2 (37/400) 4500 4 false).ez_final = 1305319/100 ∧
    (261064 : ℚ)/100 + 1044255/100 + 1305319/100 = 2610638/100 := by
  norm_num [computePricing, round2, rhe]

/-!
## Numeric config parsing

`generate_proposal_pdf` (`proposal_generator.py`, lines 155-168) parses
the numeric config fields.  A field value is either absent from the dict
(`config.get` yields the default), a numeric value or numeric string
(`float` succeeds), or a non-numeric string (`float` raises
`ValueError`).  `int(float(x))` truncates toward zero.  Only the tax
rate is wrapped in `try/except`; the others propagate the exception.
-/

inductive ConfigField
  | missing
  | num (q : ℚ)
  | nonNumStr
deriving DecidableEq, Repr

/-- `float(config.get(key, default))`: the default on a missing key, the
parsed value on a numeric one, an exception on a non-numeric string. -/
def pyFloatField (default : ℚ) : ConfigField → Except Unit ℚ
  | .missing => .ok default
  | .num q => .ok q
  | .nonNumStr => .error ()

/-- `wet_sf = int(float(config.get("wetSF", 0)))`. -/
def parse_wet_sf (f : ConfigField) : Except Unit ℤ :=
  (pyFloatField 0 f).map pyInt

/-- `rate_psf = float(config.get("ratePSF", 2.00))`. -/
def parse_rate_psf (f : ConfigField) : Except Unit ℚ :=
  pyFloatField 2 f

/-- `scan_cost = float(config.get("scanCost", 4500))`. -/
def parse_scan_cost (f : ConfigField) : Except Unit ℚ :=
  pyFloatField 4500 f

/-- `num_scans = int(float(config.get("numScans", 4)))`. -/
def parse_num_scans (f : ConfigField) : Except Unit ℤ :=
  (pyFloatField 4 f).map pyInt

/-!
The tax rate is read from two config fields with Python truthiness:
`float(config.get("taxRateOverride", "") or config.get("taxRate", "") or 0)`
inside `try/except` that leaves the initial `tax_rate_val = 0` on any
parse failure.  A missing key or empty string is falsy; any non-empty
string is truthy.
-/

inductive TaxFieldVal
  | blank
  | numStr (q : ℚ)
  | nonNumStr
deriving DecidableEq, Repr

def taxTruthy : TaxFieldVal → Bool
  | .blank => false
  | .numStr _ => true
  | .nonNumStr => true

/-- `tax_rate_val` as computed at `proposal_generator.py` lines 164-168:
the first truthy of override and base rate is parsed; a parse failure is
swallowed and the initial value 0 is kept. -/
def tax_rate_val (override taxRate : TaxFieldVal) : ℚ :=
  let chosen := if taxTruthy override then override
    else if taxTruthy taxRate then taxRate
    else .blank
  match chosen with
  | .numStr q => q
  | .nonNumStr => 0
  | .blank => 0

theorem round2_zero : round2 0 = 0 := by
  norm_num [round2, rhe]

theorem pyInt_intCast (n : ℤ) : pyInt (n : ℚ) = n := by
  unfold pyInt
  split <;> simp

/-- C8 counterexample: a negative wet area is accepted unvalidated
(`.ok`, never a ValidationError), and a non-numeric rate string raises a
parse error instead of failing closed to the default 2.00. -/
theorem negative_and_nonnumeric_parse_counterexample :
    parse_wet_sf (.num (-100)) = .ok (-100) ∧
    parse_rate_psf .nonNumStr = .error () ∧
    parse_rate_psf .nonNumStr ≠ .ok 2 := by
  refine ⟨?_, rfl, by simp [parse_rate_psf, pyFloatField]⟩
  have : ((-100 : ℚ)) = ((-100 : ℤ) : ℚ) := by norm_num
  simp only [parse_wet_sf, pyFloatField, Except.map, this, pyInt_intCast]

/-- C8 amended: missing fields fall back to the documented defaults
(area 0, rate 2.00, scanCost 4500, numScans 4); negative values are
accepted with no error and flow into the computation; a non-numeric
string raises a parse error for these four fields instead of using the
default; only the tax rate fails closed, to 0. -/
theorem parse_defaults_negatives_and_errors (q : ℚ) (hq : q < 0) :
    parse_wet_sf .missing = .ok 0 ∧
    parse_rate_psf .missing = .ok 2 ∧
    parse_scan_cost .missing = .ok 4500 ∧
    parse_num_scans .missing = .ok 4 ∧
    parse_wet_sf (.num q) = .ok (pyInt q) ∧
    parse_rate_psf (.num q) = .ok q ∧
    parse_scan_cost (.num q) = .ok q ∧
    parse_wet_sf .nonNumStr = .error () ∧
    parse_rate_psf .nonNumStr = .error () ∧
    parse_scan_cost .nonNumStr = .error () ∧
    parse_num_scans .nonNumStr = .error () ∧
    tax_rate_val .nonNumStr .blank = 0 := by
  refine ⟨?_, rfl, rfl, ?_, rfl, rfl, rfl, rfl, rfl, rfl, rfl, rfl⟩
  · have : ((0 : ℚ)) = ((0 : ℤ) : ℚ) := by norm_num
    simp only [parse_wet_sf, pyFloatField, Except.map, this, pyInt_intCast]
  · have : ((4 : ℚ)) = ((4 : ℤ) : ℚ) := by norm_num
    simp only [parse_num_scans, pyFloatField, Except.map, this, pyInt_intCast]

/-- C8 amended witness at q = -100. -/
theorem parse_defaults_negatives_and_errors_witness :
    parse_wet_sf .missing = .ok 0 ∧
    parse_rate_psf .missing = .ok 2 ∧
    parse_scan_cost .missing = .ok 4500 ∧
    parse_num_scans .missing = .ok 4 ∧
    parse_wet_sf (.num (-100)) = .ok (pyInt (-100)) ∧
    parse_rate_psf (.num (-100)) = .ok (-100) ∧
    parse_scan_cost (.num (-100)) = .ok (-100) ∧
    parse_wet_sf .nonNumStr = .error () ∧
    parse_rate_psf .nonNumStr = .error () ∧
    parse_scan_cost .nonNumStr = .error () ∧
    parse_num_scans .nonNumStr = .error () ∧
    tax_rate_val .nonNumStr .blank = 0 :=
  parse_defaults_negatives_and_errors (-100) (by norm_num)

/-- C10: a non-numeric tax override yields tax rate 0 even when a valid
base rate is present, a non-numeric base rate (with a blank override)
also yields 0, no exception escapes, and the zero rate zeroes the tax
line of the whole pricing computation. -/
theorem malformed_tax_string_zeroes_tax (q : ℚ) (wet_sf : ℤ)
    (rate sc : ℚ) (n : ℤ) (w : Bool) :
    tax_rate_val .nonNumStr (.numStr q) = 0 ∧
    tax_rate_val .blank .nonNumStr = 0 ∧
    (computePricing wet_sf rate (tax_rate_val .nonNumStr (.numStr q)) sc n w).tax_amount
      = 0 ∧
    computePricing wet_sf rate (tax_rate_val .nonNumStr (.numStr q)) sc n w
      = computePricing wet_sf rate 0 sc n w := by
  have h0 : tax_rate_val .nonNumStr (.numStr q) = 0 := rfl
  refine ⟨h0, rfl, ?_, rfl⟩
  rw [h0]
  simp only [computePricing]
  rw [mul_zero]
  exact round2_zero

/-!
## Proposal lifecycle (`server.py`)

State of one proposal: the `proposals` row (status + four nullable
timestamps), the append-only `proposal_events` log, the `signatures`
rows, the `payments` rows and the `{pid}_accepted.json` file snapshot.
Instants are modelled as naturals; a signature / payment payload is an
opaque natural.  The endpoints are modelled on their happy path (the
proposal file exists, the database is configured and every query
succeeds).
-/

inductive Status
  | draft
  | sent
  | viewed
  | signed
  | paid
deriving DecidableEq, Repr

/-- Position of a status in the order draft < sent < viewed < signed < paid. -/
def statusRank : Status → Nat
  | .draft => 0
  | .sent => 1
  | .viewed => 2
  | .signed => 3
  | .paid => 4

inductive EventType
  | created
  | sent
  | viewed
  | signed
  | payment
deriving DecidableEq, Repr

inductive TsField
  | sentAt
  | viewedAt
  | signedAt
  | paidAt
deriving DecidableEq, Repr

structure ServerState where
  status : Status
  sent_at : Option Nat
  viewed_at : Option Nat
  signed_at : Option Nat
  paid_at : Option Nat
  events : List (EventType × Nat)
  signatures : List (Nat × Nat)
  payments : List (Nat × Nat)
  acceptedFile : Option (Nat × Nat)
deriving DecidableEq, Repr

/-- `db_update_status` (`server.py` lines 74-83): unconditionally set the
status and, when a timestamp field is named, overwrite that field with
the current instant. -/
def db_update_status (s : ServerState) (st : Status)
    (field : Option TsField) (now : Nat) : ServerState :=
  let s1 := { s with status := st }
  match field with
  | none => s1
  | some .sentAt => { s1 with sent_at := some now }
  | some .viewedAt => { s1 with viewed_at := some now }
  | some .signedAt => { s1 with signed_at := some now }
  | some .paidAt => { s1 with paid_at := some now }

/-- `db_log_event` (`server.py` lines 85-92): append one event row. -/
def db_log_event (s : ServerState) (e : EventType) (now : Nat) : ServerState :=
  { s with events := s.events ++ [(e, now)] }

/-- `db_store_signature` (`server.py` lines 94-104): insert one
signatures row (plain INSERT, no uniqueness guard). -/
def db_store_signature (s : ServerState) (sig : Nat) (now : Nat) : ServerState :=
  { s with signatures := s.signatures ++ [(sig, now)] }

/-- `db_store_payment` (`server.py` lines 106-116): insert one payments
row. -/
def db_store_payment (s : ServerState) (pmt : Nat) (now : Nat) : ServerState :=
  { s with payments := s.payments ++ [(pmt, now)] }

/-- Fresh proposal as created by `generate_proposal_link`
(`server.py` lines 232-233): stored with status draft, a `created`
event, and no timestamps, signatures or payments. -/
def initialState (now : Nat) : ServerState :=
  { status := .draft
    sent_at := none
    viewed_at := none
    signed_at := none
    paid_at := none
    events := [(.created, now)]
    signatures := []
    payments := []
    acceptedFile := none }

/-- `send_proposal` (`server.py` lines 351-357): the status update and
event log run only when `send_email` returned success; the response
reports the flag. -/
def send_proposal (emailOk : Bool) (now : Nat) (s : ServerState) :
    ServerState × Bool :=
  if emailOk then
    (db_log_event (db_update_status s .sent (some .sentAt) now) .sent now, true)
  else
    (s, false)

/-- `get_proposal_config` (`server.py` lines 360-367): every read of the
proposal sets status viewed, stamps `viewed_at` and logs a `viewed`
event. -/
def get_proposal_config (now : Nat) (s : ServerState) : ServerState :=
  db_log_event (db_update_status s .viewed (some .viewedAt) now) .viewed now

inductive AcceptResult
  | accepted
  | conflict
deriving DecidableEq, Repr

/-- `accept_proposal` (`server.py` lines 385-456): overwrite the
`{pid}_accepted.json` snapshot, insert a signatures row, set status
signed with `signed_at`, log a `signed` event, and respond
"accepted" — there is no already-signed guard. -/
def accept_proposal (sig : Nat) (now : Nat) (s : ServerState) :
    ServerState × AcceptResult :=
  let s1 := { s with acceptedFile := some (sig, now) }
  let s2 := db_store_signature s1 sig now
  let s3 := db_update_status s2 .signed (some .signedAt) now
  let s4 := db_log_event s3 .signed now
  (s4, .accepted)

/-- `payment_confirm` (`server.py` lines 487-546): insert a payments
row, set status paid with `paid_at`, log a `payment` event. -/
def payment_confirm (pmt : Nat) (now : Nat) (s : ServerState) : ServerState :=
  db_log_event
    (db_update_status (db_store_payment s pmt now) .paid (some .paidAt) now)
    .payment now

/-- C5 counterexample: firing 'viewed' at instant 1 and again at
instant 2 leaves `viewed_at = some 2` — the first call's instant is not
preserved. -/
theorem viewed_twice_overwrites_counterexample :
    (get_proposal_config 1 (initialState 0)).viewed_at = some 1 ∧
    (get_proposal_config 2 (get_proposal_config 1 (initialState 0))).viewed_at
      = some 2 ∧
    (get_proposal_config 2 (get_proposal_config 1 (initialState 0))).viewed_at
      ≠ (get_proposal_config 1 (initialState 0)).viewed_at := by
  refine ⟨rfl, rfl, by decide⟩

/-- C5 amended: every lifecycle transition overwrites its timestamp with
the current call's instant (last-write-wins, never first-write-wins),
and a 'viewed' event-log entry is appended on every 'viewed' call. -/
theorem lifecycle_timestamps_overwritten (s : ServerState)
    (t1 t2 a1 a2 p1 p2 : Nat) :
    (get_proposal_config t1 s).viewed_at = some t1 ∧
    (get_proposal_config t2 (get_proposal_config t1 s)).viewed_at = some t2 ∧
    (get_proposal_config t2 (get_proposal_config t1 s)).events =
      s.events ++ [(.viewed, t1), (.viewed, t2)] ∧
    ((send_proposal true t2 ((send_proposal true t1 s).1)).1).sent_at = some t2 ∧
    ((accept_proposal a2 t2 ((accept_proposal a1 t1 s).1)).1).signed_at = some t2 ∧
    (payment_confirm p2 t2 (payment_confirm p1 t1 s)).paid_at = some t2 := by
  refine ⟨rfl, rfl, ?_, rfl, rfl, rfl⟩
  simp [get_proposal_config, db_log_event, db_update_status]

/-- C6 counterexample: signing at instant 1 and signing again at
instant 2 yields an "accepted" response both times (no Conflict
error), overwrites the accepted-file snapshot, and adds a second
signatures row. -/
theorem double_sign_not_rejected_counterexample :
    (accept_proposal 20 2 ((accept_proposal 10 1 (initialState 0)).1)).2
      = .accepted ∧
    (accept_proposal 20 2 ((accept_proposal 10 1 (initialState 0)).1)).2
      ≠ .conflict ∧
    ((accept_proposal 10 1 (initialState 0)).1).acceptedFile = some (10, 1) ∧
    ((accept_proposal 20 2 ((accept_proposal 10 1 (initialState 0)).1)).1).acceptedFile
      = some (20, 2) ∧
    ((accept_proposal 20 2 ((accept_proposal 10 1 (initialState 0)).1)).1).signatures
      = [(10, 1), (20, 2)] := by
  refine ⟨rfl, by decide, rfl, rfl, rfl⟩

/-- C6 amended: a second 'signed' submission succeeds with an
"accepted" response: the first signatures row stays in place but a
second row is appended, the accepted-file snapshot is overwritten by the
second submission, and `signed_at` is restamped. -/
theorem double_sign_accepted_and_appended (s : ServerState)
    (a1 a2 t1 t2 : Nat) :
    (accept_proposal a2 t2 ((accept_proposal a1 t1 s).1)).2 = .accepted ∧
    ((accept_proposal a2 t2 ((accept_proposal a1 t1 s).1)).1).signatures =
      s.signatures ++ [(a1, t1), (a2, t2)] ∧
    ((accept_proposal a2 t2 ((accept_proposal a1 t1 s).1)).1).acceptedFile
      = some (a2, t2) ∧
    ((accept_proposal a2 t2 ((accept_proposal a1 t1 s).1)).1).signed_at
      = some t2 := by
  refine ⟨rfl, ?_, rfl, rfl⟩
  simp [accept_proposal, db_store_signature, db_update_status, db_log_event]

/-- C7 counterexample: after a proposal is signed, opening the proposal
link sets status back to 'viewed' — status regresses from signed
(rank 3) to viewed (rank 2). -/
theorem view_after_signed_regresses_counterexample :
    ((accept_proposal 10 1 (initialState 0)).1).status = .signed ∧
    (get_proposal_config 2 ((accept_proposal 10 1 (initialState 0)).1)).status
      = .viewed ∧
    statusRank (get_proposal_config 2
        ((accept_proposal 10 1 (initialState 0)).1)).status
      < statusRank ((accept_proposal 10 1 (initialState 0)).1).status := by
  refine ⟨rfl, rfl, by decide⟩

/-- C7 amended: every 'viewed' call unconditionally sets status to
'viewed', so a view after 'signed' or after 'paid' regresses the status
(while still appending the 'viewed' event) — status is last-write-wins,
not monotonic. -/
theorem view_regresses_signed_and_paid (s : ServerState) (a p t t' : Nat) :
    (get_proposal_config t' ((accept_proposal a t s).1)).status = .viewed ∧
    (get_proposal_config t' (payment_confirm p t s)).status = .viewed ∧
    statusRank .viewed < statusRank .signed ∧
    statusRank .signed < statusRank .paid ∧
    (get_proposal_config t' ((accept_proposal a t s).1)).events =
      s.events ++ [(.signed, t), (.viewed, t')] := by
  refine ⟨rfl, rfl, by decide, by decide, ?_⟩
  simp [get_proposal_config, accept_proposal, db_store_signature,
    db_update_status, db_log_event]

/-- C9: the draft-to-sent transition is gated on the email result: on
failure (or an unconfigured email service) the whole proposal state —
status, timestamps and event log — is unchanged and the response is
`sent = false`; on success status becomes 'sent', `sent_at` is stamped,
a 'sent' event is logged and the response is `sent = true`. -/
theorem send_gated_on_email_success (s : ServerState) (t : Nat) :
    send_proposal false t s = (s, false) ∧
    ((send_proposal true t s).1).status = .sent ∧
    ((send_proposal true t s).1).sent_at = some t ∧
    ((send_proposal true t s).1).events = s.events ++ [(.sent, t)] ∧
    (send_proposal true t s).2 = true := by
  refine ⟨rfl, rfl, rfl, ?_, rfl⟩
  simp [send_proposal, db_update_status, db_log_event]

/-- C1 counterexample: at wet area 11600, rate 2, tax 0.0925, scan cost
4500 with 4 scans, the proposal email's 50% deposit (21673.00) splits
the 18000.00 scan total across the two installments (it exceeds the
PDF's scan-free deposit 12673.00 by exactly half the scan total), and
the email's pay-in-full teaser (42045.62) discounts the scan charges (it
is not the scan-free discounted total 24585.62 plus the flat 18000.00
scan total). -/
theorem scan_charges_adjusted_in_email_counterexample :
    (emailSummary 11600 2 (37/400) 4500 4 false).deposit_50 = 21673 ∧
    (computePricing 11600 2 (37/400) 4500 4 false).std_deposit = 12673 ∧
    (computePricing 11600 2 (37/400) 4500 4 false).scan_total = 18000 ∧
    (emailSummary 11600 2 (37/400) 4500 4 false).deposit_50 =
      (computePricing 11600 2 (37/400) 4500 4 false).std_deposit + 18000 / 2 ∧
    (emailSummary 11600 2 (37/400) 4500 4 false).deposit_50 ≠
      (computePricing 11600 2 (37/400) 4500 4 false).std_deposit ∧
    (emailSummary 11600 2 (37/400) 4500 4 false).discount_total = 4204562/100 ∧
    (computePricing 11600 2 (37/400) 4500 4 false).pf_total = 2458562/100 ∧
    (emailSummary 11600 2 (37/400) 4500 4 false).discount_total ≠
      (computePricing 11600 2 (37/400) 4500 4 false).pf_total +
        (computePricing 11600 2 (37/400) 4500 4 false).scan_total := by
  norm_num [emailSummary, computePricing, round2, rhe]

/-- C1 amended: in the PDF renderer the invariant holds — all Option
A/B/C figures are computed from the wet-area-times-rate base plus tax
only and are unchanged by the scan cost, scan count or waiver flag, and
Option B splits the scan-free lease subtotal; the proposal email,
however, computes its 50% deposit and its pay-in-full and easy-start
teasers from the grand total, which is the lease subtotal plus the scan
total, so scan charges are discounted, fee-adjusted and split there. -/
theorem pdf_options_scan_free_email_scan_inclusive
    (wet_sf : ℤ) (rate tax sc sc' : ℚ) (n n' : ℤ) (w w' : Bool) :
    (computePricing wet_sf rate tax sc n w).pf_vent_discounted =
      (computePricing wet_sf rate tax sc' n' w').pf_vent_discounted ∧
    (computePricing wet_sf rate tax sc n w).pf_tax =
      (computePricing wet_sf rate tax sc' n' w').pf_tax ∧
    (computePricing wet_sf rate tax sc n w).pf_total =
      (computePricing wet_sf rate tax sc' n' w').pf_total ∧
    (computePricing wet_sf rate tax sc n w).pf_savings =
      (computePricing wet_sf rate tax sc' n' w').pf_savings ∧
    (computePricing wet_sf rate tax sc n w).std_total =
      (computePricing wet_sf rate tax sc' n' w').std_total ∧
    (computePricing wet_sf rate tax sc n w).std_deposit =
      (computePricing wet_sf rate tax sc' n' w').std_deposit ∧
    (computePricing wet_sf rate tax sc n w).std_balance =
      (computePricing wet_sf rate tax sc' n' w').std_balance ∧
    (computePricing wet_sf rate tax sc n w).ez_total =
      (computePricing wet_sf rate tax sc' n' w').ez_total ∧
    (computePricing wet_sf rate tax sc n w).ez_deposit =
      (computePricing wet_sf rate tax sc' n' w').ez_deposit ∧
    (computePricing wet_sf rate tax sc n w).ez_install =
      (computePricing wet_sf rate tax sc' n' w').ez_install ∧
    (computePricing wet_sf rate tax sc n w).ez_final =
      (computePricing wet_sf rate tax sc' n' w').ez_final ∧
    (computePricing wet_sf rate tax sc n w).std_deposit =
      round2 ((computePricing wet_sf rate tax sc n w).vent_subtotal / 2) ∧
    (emailSummary (wet_sf : ℚ) rate tax sc n w).grand_total =
      round2 ((computePricing wet_sf rate tax sc n w).vent_subtotal +
        (computePricing wet_sf rate tax sc n w).scan_total) ∧
    (emailSummary (wet_sf : ℚ) rate tax sc n w).deposit_50 =
      round2 ((emailSummary (wet_sf : ℚ) rate tax sc n w).grand_total / 2) ∧
    (emailSummary (wet_sf : ℚ) rate tax sc n w).discount_total =
      round2 ((emailSummary (wet_sf : ℚ) rate tax sc n w).grand_total * (97/100)) ∧
    (emailSummary (wet_sf : ℚ) rate tax sc n w).easy_start =
      round2 ((emailSummary (wet_sf : ℚ) rate tax sc n w).grand_total *
        (103/100) * (10/100)) := by
  exact ⟨rfl, rfl, rfl, rfl, rfl, rfl, rfl, rfl, rfl, rfl, rfl, rfl, rfl, rfl,
    rfl, rfl⟩

end ReDry
